import Mathlib

/-!
Verification of the `kudu::Status` value type (`src/util/status.h`).

A `Status` is either success (`state_ == NULL`) or an error owning one
heap block laid out as
  state_[0..3] = length of message (little-endian uint32)
  state_[4]    = code
  state_[5..6] = posix_code (little-endian int16)
  state_[7..]  = message bytes
We embed the byte block as a `List Nat` of byte values.  The method bodies
that live in `status.cc` (absent from the repository snapshot) are modelled
from the specification, marked `Modelled from the spec:` below; everything
else is translated from `status.h`.
-/

/-- A byte string (each entry is one byte value). -/
abbrev Msg := List Nat

/-- Little-endian 4-byte encoding of a `uint32` length, as the block header
stores it. -/
def enc32 (n : Nat) : List Nat :=
  [n % 256, n / 256 % 256, n / 65536 % 256, n / 16777216 % 256]

/-- Decode the 4-byte little-endian length header. -/
def dec32 (bs : List Nat) : Nat :=
  bs.getD 0 0 + bs.getD 1 0 * 256 + bs.getD 2 0 * 65536 + bs.getD 3 0 * 16777216

/-- The bit pattern of an `int16_t` as an unsigned 16-bit value. -/
def toUInt16 (p : Int) : Nat :=
  (p % 65536).toNat

/-- Little-endian 2-byte encoding of the `int16_t` posix code. -/
def enc16 (p : Int) : List Nat :=
  [toUInt16 p % 256, toUInt16 p / 256]

/-- Decode two bytes back to the signed 16-bit posix code. -/
def dec16 (lo hi : Nat) : Int :=
  if lo + hi * 256 < 32768 then (lo + hi * 256 : Int) else (lo + hi * 256 : Int) - 65536

/-- The `Status::Code` enumeration values from `status.h`. -/
def kOk : Nat := 0

def kNotFound : Nat := 1

def kCorruption : Nat := 2

def kNotSupported : Nat := 3

def kInvalidArgument : Nat := 4

def kIOError : Nat := 5

def kAlreadyPresent : Nat := 6

def kRuntimeError : Nat := 7

def kNetworkError : Nat := 8

def kIllegalState : Nat := 9

def kNotAuthorized : Nat := 10

def kAborted : Nat := 11

def kRemoteError : Nat := 12

def kServiceUnavailable : Nat := 13

def kTimedOut : Nat := 14

def kUninitialized : Nat := 15

def kConfigurationError : Nat := 16

/-- A `Status` value: `state = none` models `state_ == NULL` (success),
`state = some bs` models ownership of the heap block with bytes `bs`. -/
structure Status where
  state : Option Msg
deriving DecidableEq

/-- Modelled from the spec: the two message fragments are concatenated with
the delimiter `": "` (bytes 58, 32) into one combined message when the
second is non-empty (spec section 3; the combining is performed by the
private constructor `Status::Status(Code, Slice, Slice, int16_t)`, whose
body lives in the absent `status.cc`). -/
def combineMsg (m1 m2 : Msg) : Msg :=
  if m2 = [] then m1 else m1 ++ [58, 32] ++ m2

/-- Modelled from the spec: the private constructor
`Status::Status(Code, Slice, Slice, int16_t)` (body in the absent
`status.cc`) allocates one block holding the combined message's length, the
category tag, the platform code and the message bytes, per spec section 3
and the layout comment in `status.h`. -/
def statusCtor (code : Nat) (m1 m2 : Msg) (p : Int) : Status :=
  ⟨some (enc32 (combineMsg m1 m2).length ++ [code] ++ enc16 p ++ combineMsg m1 m2)⟩

/-- `Status::OK()`: a success status (`state_ == NULL`). -/
def Status.OK : Status := ⟨none⟩

/-- `Status::NotFound(msg, msg2, posix_code)`. -/
def Status.NotFound (m1 m2 : Msg) (p : Int) : Status := statusCtor kNotFound m1 m2 p

/-- `Status::Corruption(msg, msg2, posix_code)`. -/
def Status.Corruption (m1 m2 : Msg) (p : Int) : Status := statusCtor kCorruption m1 m2 p

/-- `Status::NotSupported(msg, msg2, posix_code)`. -/
def Status.NotSupported (m1 m2 : Msg) (p : Int) : Status := statusCtor kNotSupported m1 m2 p

/-- `Status::InvalidArgument(msg, msg2, posix_code)`. -/
def Status.InvalidArgument (m1 m2 : Msg) (p : Int) : Status := statusCtor kInvalidArgument m1 m2 p

/-- `Status::IOError(msg, msg2, posix_code)`. -/
def Status.IOError (m1 m2 : Msg) (p : Int) : Status := statusCtor kIOError m1 m2 p

/-- `Status::AlreadyPresent(msg, msg2, posix_code)`. -/
def Status.AlreadyPresent (m1 m2 : Msg) (p : Int) : Status := statusCtor kAlreadyPresent m1 m2 p

/-- `Status::RuntimeError(msg, msg2, posix_code)`. -/
def Status.RuntimeError (m1 m2 : Msg) (p : Int) : Status := statusCtor kRuntimeError m1 m2 p

/-- `Status::NetworkError(msg, msg2, posix_code)`. -/
def Status.NetworkError (m1 m2 : Msg) (p : Int) : Status := statusCtor kNetworkError m1 m2 p

/-- `Status::IllegalState(msg, msg2, posix_code)`. -/
def Status.IllegalState (m1 m2 : Msg) (p : Int) : Status := statusCtor kIllegalState m1 m2 p

/-- `Status::NotAuthorized(msg, msg2, posix_code)`. -/
def Status.NotAuthorized (m1 m2 : Msg) (p : Int) : Status := statusCtor kNotAuthorized m1 m2 p

/-- `Status::Aborted(msg, msg2, posix_code)`. -/
def Status.Aborted (m1 m2 : Msg) (p : Int) : Status := statusCtor kAborted m1 m2 p

/-- `Status::RemoteError(msg, msg2, posix_code)`. -/
def Status.RemoteError (m1 m2 : Msg) (p : Int) : Status := statusCtor kRemoteError m1 m2 p

/-- `Status::ServiceUnavailable(msg, msg2, posix_code)`. -/
def Status.ServiceUnavailable (m1 m2 : Msg) (p : Int) : Status :=
  statusCtor kServiceUnavailable m1 m2 p

/-- `Status::TimedOut(msg, msg2, posix_code)`. -/
def Status.TimedOut (m1 m2 : Msg) (p : Int) : Status := statusCtor kTimedOut m1 m2 p

/-- `Status::Uninitialized(msg, msg2, posix_code)`. -/
def Status.Uninitialized (m1 m2 : Msg) (p : Int) : Status := statusCtor kUninitialized m1 m2 p

/-- `Status::ConfigurationError(msg, msg2, posix_code)`. -/
def Status.ConfigurationError (m1 m2 : Msg) (p : Int) : Status :=
  statusCtor kConfigurationError m1 m2 p

/-- The sixteen error categories, for quantifying over the factories. -/
inductive ErrCode where
  | notFound
  | corruption
  | notSupported
  | invalidArgument
  | ioError
  | alreadyPresent
  | runtimeError
  | networkError
  | illegalState
  | notAuthorized
  | aborted
  | remoteError
  | serviceUnavailable
  | timedOut
  | uninitialized
  | configurationError
deriving DecidableEq, BEq

/-- Dispatch from a category to its factory function. -/
def mkError (c : ErrCode) (m1 m2 : Msg) (p : Int) : Status :=
  match c with
  | .notFound => Status.NotFound m1 m2 p
  | .corruption => Status.Corruption m1 m2 p
  | .notSupported => Status.NotSupported m1 m2 p
  | .invalidArgument => Status.InvalidArgument m1 m2 p
  | .ioError => Status.IOError m1 m2 p
  | .alreadyPresent => Status.AlreadyPresent m1 m2 p
  | .runtimeError => Status.RuntimeError m1 m2 p
  | .networkError => Status.NetworkError m1 m2 p
  | .illegalState => Status.IllegalState m1 m2 p
  | .notAuthorized => Status.NotAuthorized m1 m2 p
  | .aborted => Status.Aborted m1 m2 p
  | .remoteError => Status.RemoteError m1 m2 p
  | .serviceUnavailable => Status.ServiceUnavailable m1 m2 p
  | .timedOut => Status.TimedOut m1 m2 p
  | .uninitialized => Status.Uninitialized m1 m2 p
  | .configurationError => Status.ConfigurationError m1 m2 p

/-- The byte value a category's factory stores at `state_[4]`. -/
def ErrCode.toByte : ErrCode → Nat
  | .notFound => kNotFound
  | .corruption => kCorruption
  | .notSupported => kNotSupported
  | .invalidArgument => kInvalidArgument
  | .ioError => kIOError
  | .alreadyPresent => kAlreadyPresent
  | .runtimeError => kRuntimeError
  | .networkError => kNetworkError
  | .illegalState => kIllegalState
  | .notAuthorized => kNotAuthorized
  | .aborted => kAborted
  | .remoteError => kRemoteError
  | .serviceUnavailable => kServiceUnavailable
  | .timedOut => kTimedOut
  | .uninitialized => kUninitialized
  | .configurationError => kConfigurationError

/-- `Status::ok()`: `state_ == NULL`. -/
def Status.ok (s : Status) : Bool :=
  s.state.isNone

/-- `Status::code()`: `kOk` when `state_ == NULL`, else `state_[4]`. -/
def Status.code (s : Status) : Nat :=
  match s.state with
  | none => kOk
  | some st => st.getD 4 0

/-- `Status::IsNotFound()`: `code() == kNotFound`. -/
def Status.IsNotFound (s : Status) : Bool := Status.code s == kNotFound

/-- `Status::IsCorruption()`: `code() == kCorruption`. -/
def Status.IsCorruption (s : Status) : Bool := Status.code s == kCorruption

/-- `Status::IsNotSupported()`: `code() == kNotSupported`. -/
def Status.IsNotSupported (s : Status) : Bool := Status.code s == kNotSupported

/-- `Status::IsIOError()`: `code() == kIOError`. -/
def Status.IsIOError (s : Status) : Bool := Status.code s == kIOError

/-- `Status::IsInvalidArgument()`: `code() == kInvalidArgument`. -/
def Status.IsInvalidArgument (s : Status) : Bool := Status.code s == kInvalidArgument

/-- `Status::IsAlreadyPresent()`: `code() == kAlreadyPresent`. -/
def Status.IsAlreadyPresent (s : Status) : Bool := Status.code s == kAlreadyPresent

/-- `Status::IsRuntimeError()`: `code() == kRuntimeError`. -/
def Status.IsRuntimeError (s : Status) : Bool := Status.code s == kRuntimeError

/-- `Status::IsNetworkError()`: `code() == kNetworkError`. -/
def Status.IsNetworkError (s : Status) : Bool := Status.code s == kNetworkError

/-- `Status::IsIllegalState()`: `code() == kIllegalState`. -/
def Status.IsIllegalState (s : Status) : Bool := Status.code s == kIllegalState

/-- `Status::IsNotAuthorized()`: `code() == kNotAuthorized`. -/
def Status.IsNotAuthorized (s : Status) : Bool := Status.code s == kNotAuthorized

/-- `Status::IsAborted()`: `code() == kAborted`. -/
def Status.IsAborted (s : Status) : Bool := Status.code s == kAborted

/-- `Status::IsRemoteError()`: `code() == kRemoteError`. -/
def Status.IsRemoteError (s : Status) : Bool := Status.code s == kRemoteError

/-- `Status::IsServiceUnavailable()`: `code() == kServiceUnavailable`. -/
def Status.IsServiceUnavailable (s : Status) : Bool := Status.code s == kServiceUnavailable

/-- `Status::IsTimedOut()`: `code() == kTimedOut`. -/
def Status.IsTimedOut (s : Status) : Bool := Status.code s == kTimedOut

/-- `Status::IsUninitialized()`: `code() == kUninitialized`. -/
def Status.IsUninitialized (s : Status) : Bool := Status.code s == kUninitialized

/-- `Status::IsConfigurationError()`: `code() == kConfigurationError`. -/
def Status.IsConfigurationError (s : Status) : Bool := Status.code s == kConfigurationError

/-- Modelled from the spec: `Status::message()` (body in the absent
`status.cc`) returns a view over the stored message bytes only — the bytes
at offset 7, of the length recorded in the header — and the empty string
for Ok (spec section 4.1). -/
def Status.message (s : Status) : Msg :=
  match s.state with
  | none => []
  | some st => (st.drop 7).take (dec32 (st.take 4))

/-- Modelled from the spec: `Status::posix_code()` (body in the absent
`status.cc`) returns the stored platform code — the `int16` at offsets
5..6 — or the absent sentinel `-1` when the instance is Ok (spec
section 4.1). -/
def Status.posix_code (s : Status) : Int :=
  match s.state with
  | none => -1
  | some st => dec16 (st.getD 5 0) (st.getD 6 0)

/-- Render stored message bytes as a string for `ToString`. -/
def bytesToString (m : Msg) : String :=
  String.mk (m.map Char.ofNat)

/-- Modelled from the spec: the display name of each code, as
`Status::CodeAsString()` (body in the absent `status.cc`) renders it; the
names follow the spec's glossary of categories, with `"OK"` for success. -/
def codeName (c : Nat) : String :=
  if c = kOk then "OK"
  else if c = kNotFound then "NotFound"
  else if c = kCorruption then "Corruption"
  else if c = kNotSupported then "NotSupported"
  else if c = kInvalidArgument then "InvalidArgument"
  else if c = kIOError then "IOError"
  else if c = kAlreadyPresent then "AlreadyPresent"
  else if c = kRuntimeError then "RuntimeError"
  else if c = kNetworkError then "NetworkError"
  else if c = kIllegalState then "IllegalState"
  else if c = kNotAuthorized then "NotAuthorized"
  else if c = kAborted then "Aborted"
  else if c = kRemoteError then "RemoteError"
  else if c = kServiceUnavailable then "ServiceUnavailable"
  else if c = kTimedOut then "TimedOut"
  else if c = kUninitialized then "Uninitialized"
  else if c = kConfigurationError then "ConfigurationError"
  else "Unknown"

/-- Modelled from the spec: `Status::CodeAsString()` (body in the absent
`status.cc`) renders just the category's display name. -/
def Status.CodeAsString (s : Status) : String :=
  codeName (Status.code s)

/-- Modelled from the spec: `Status::ToString()` (body in the absent
`status.cc`) renders `"OK"` for success, otherwise the category's display
name, `": "`, the stored message, and `" (error <posix>)"` when a platform
code is present (spec section 4.1). -/
def Status.ToString (s : Status) : String :=
  match s.state with
  | none => "OK"
  | some _ =>
    Status.CodeAsString s ++ ": " ++ bytesToString (Status.message s) ++
      (if Status.posix_code s = -1 then ""
       else " (error " ++ toString (Status.posix_code s) ++ ")")

/-- Modelled from the spec: `Status::CloneAndPrepend(msg)` (body in the
absent `status.cc`) builds a new instance with the same category and
platform code, with `msg` prepended to the stored message through the
private constructor (spec section 4.1 Derivation). -/
def Status.CloneAndPrepend (s : Status) (m : Msg) : Status :=
  statusCtor (Status.code s) m (Status.message s) (Status.posix_code s)

/-- The display name attached to each error category by the spec's
glossary; used to state what `ToString` renders. -/
def errName : ErrCode → String
  | .notFound => "NotFound"
  | .corruption => "Corruption"
  | .notSupported => "NotSupported"
  | .invalidArgument => "InvalidArgument"
  | .ioError => "IOError"
  | .alreadyPresent => "AlreadyPresent"
  | .runtimeError => "RuntimeError"
  | .networkError => "NetworkError"
  | .illegalState => "IllegalState"
  | .notAuthorized => "NotAuthorized"
  | .aborted => "Aborted"
  | .remoteError => "RemoteError"
  | .serviceUnavailable => "ServiceUnavailable"
  | .timedOut => "TimedOut"
  | .uninitialized => "Uninitialized"
  | .configurationError => "ConfigurationError"

/-- The heap of payload blocks: live allocations (address, bytes) and the
next fresh address.  Models `new[]` / `delete[]` for the ownership claims. -/
structure Heap where
  blocks : List (Nat × Msg)
  nextAddr : Nat

/-- Look an address up among the live blocks. -/
def findBlock : List (Nat × Msg) → Nat → Option Msg
  | [], _ => none
  | q :: rest, a => if a = q.1 then some q.2 else findBlock rest a

/-- Drop every block at the given address (models `delete[]`). -/
def removeBlock : List (Nat × Msg) → Nat → List (Nat × Msg)
  | [], _ => []
  | q :: rest, a => if q.1 = a then removeBlock rest a else q :: removeBlock rest a

/-- The bytes a pointer dereferences to, if live. -/
def Heap.get (h : Heap) (a : Nat) : Option Msg :=
  findBlock h.blocks a

/-- `new[]` plus `memcpy`: a fresh address now holding the given bytes. -/
def Heap.alloc (h : Heap) (m : Msg) : Heap × Nat :=
  (⟨(h.nextAddr, m) :: h.blocks, h.nextAddr + 1⟩, h.nextAddr)

/-- `delete[]` of a (possibly dangling) address. -/
def Heap.free (h : Heap) (a : Nat) : Heap :=
  ⟨removeBlock h.blocks a, h.nextAddr⟩

/-- Heap well-formedness: every live address is below the fresh counter. -/
def Heap.wf (h : Heap) : Prop :=
  ∀ q ∈ h.blocks, q.1 < h.nextAddr

/-- Modelled from the spec: `Status::CopyState` (body in the absent
`status.cc`) deep-copies a payload block into a fresh allocation and
returns the new address (spec: "copying a non-Ok instance deep-copies the
block"). -/
def CopyState (h : Heap) (a : Nat) : Heap × Nat :=
  Heap.alloc h ((Heap.get h a).getD [])

/-- `Status::operator=` from `status.h`: the destination's `state_` and the
source's `state_` as pointers (`none` is `NULL`); returns the heap after
the call, the destination's new `state_`, the number of `new[]` calls and
the number of `delete[]` calls on a non-null pointer.  The short circuit
`state_ != s.state_` is the pointer comparison from the source. -/
def statusAssign (h : Heap) (dst src : Option Nat) : Heap × Option Nat × Nat × Nat :=
  if dst = src then (h, dst, 0, 0)
  else
    match dst, src with
    | none, none => (h, none, 0, 0)
    | none, some a => ((CopyState h a).1, some (CopyState h a).2, 1, 0)
    | some a0, none => (Heap.free h a0, none, 0, 1)
    | some a0, some a =>
      ((CopyState (Heap.free h a0) a).1, some (CopyState (Heap.free h a0) a).2, 1, 1)

/-- `Status::Status(const Status&)` from `status.h`: `NULL` stays `NULL`,
otherwise the block is deep-copied with `CopyState`. -/
def statusCopy (h : Heap) (src : Option Nat) : Heap × Option Nat :=
  match src with
  | none => (h, none)
  | some a => ((CopyState h a).1, some (CopyState h a).2)

/-- The `Status` value a `state_` pointer denotes under a heap. -/
def obsStatus (h : Heap) (p : Option Nat) : Status :=
  match p with
  | none => ⟨none⟩
  | some a => ⟨Heap.get h a⟩

/-- A factory call with the posix argument omitted: the header declares
`int16_t posix_code = -1`, so the omitted-argument call is the call with
the sentinel `-1`. -/
def mkErrorNoCode (c : ErrCode) (m1 m2 : Msg) : Status :=
  mkError c m1 m2 (-1)

/-- The encoded-block shape from the layout comment in `status.h`: the
message's byte length, then the one-byte category tag of one of the sixteen
error categories, then the platform code, then the raw message bytes. -/
def statusStateWF (bs : Msg) : Prop :=
  ∃ k p m, 1 ≤ k ∧ k ≤ 16 ∧ bs = enc32 m.length ++ [k] ++ enc16 p ++ m

/-- Representation invariant: an Ok instance carries no block, a non-Ok
instance owns one block of the encoded shape. -/
def StatusWF (s : Status) : Prop :=
  match s.state with
  | none => True
  | some bs => statusStateWF bs

theorem findBlock_removeBlock_self (l : List (Nat × Msg)) (a : Nat) :
    findBlock (removeBlock l a) a = none := by
  induction l with
  | nil => rfl
  | cons q rest ih =>
    by_cases hq : q.1 = a
    · simpa [removeBlock, hq] using ih
    · have hq2 : ¬a = q.1 := fun h => hq h.symm
      simp [removeBlock, hq, findBlock, hq2, ih]

theorem findBlock_removeBlock_ne (l : List (Nat × Msg)) (a x : Nat) (hx : x ≠ a) :
    findBlock (removeBlock l a) x = findBlock l x := by
  induction l with
  | nil => rfl
  | cons q rest ih =>
    by_cases hq : q.1 = a
    · have : x ≠ q.1 := fun h => hx (h ▸ hq)
      simp [removeBlock, hq, findBlock, this, hx, ih]
    · by_cases hxq : x = q.1
      · simp [removeBlock, hq, findBlock, hxq]
      · simp [removeBlock, hq, findBlock, hxq, ih]

theorem findBlock_some_lt (h : Heap) (a : Nat) (bs : Msg) (hwf : Heap.wf h)
    (ha : Heap.get h a = some bs) : a < h.nextAddr := by
  have : ∀ l : List (Nat × Msg), (∀ q ∈ l, q.1 < h.nextAddr) →
      findBlock l a = some bs → a < h.nextAddr := by
    intro l
    induction l with
    | nil => intro _ hfind; simp [findBlock] at hfind
    | cons q rest ih =>
      intro hall hfind
      by_cases hq : a = q.1
      · exact hq ▸ hall q (List.mem_cons_self q rest)
      · exact ih (fun r hr => hall r (List.mem_cons_of_mem q hr)) (by simpa [findBlock, hq] using hfind)
  exact this h.blocks hwf ha

theorem heapGet_alloc_self (h : Heap) (m : Msg) :
    Heap.get (Heap.alloc h m).1 (Heap.alloc h m).2 = some m := by
  simp [Heap.alloc, Heap.get, findBlock]

theorem heapGet_alloc_ne (h : Heap) (m : Msg) (x : Nat) (hx : x ≠ h.nextAddr) :
    Heap.get (Heap.alloc h m).1 x = Heap.get h x := by
  simp [Heap.alloc, Heap.get, findBlock, hx]

theorem heapGet_free_self (h : Heap) (a : Nat) : Heap.get (Heap.free h a) a = none := by
  simp [Heap.free, Heap.get, findBlock_removeBlock_self]

theorem heapGet_free_ne (h : Heap) (a x : Nat) (hx : x ≠ a) :
    Heap.get (Heap.free h a) x = Heap.get h x := by
  simp [Heap.free, Heap.get, findBlock_removeBlock_ne _ _ _ hx]

theorem dec32_enc32 (n : Nat) (h : n < 4294967296) : dec32 (enc32 n) = n := by
  simp only [enc32, dec32, List.getD, List.get?, Option.getD_some]
  omega

theorem dec16_enc16 (p : Int) (h1 : -32768 ≤ p) (h2 : p < 32768) :
    dec16 (toUInt16 p % 256) (toUInt16 p / 256) = p := by
  simp only [dec16, toUInt16]
  omega

theorem take4_enc (n k : Nat) (p : Int) (m : Msg) :
    ((enc32 n ++ [k] ++ enc16 p ++ m).take 4) = enc32 n := rfl

theorem drop7_enc (n k : Nat) (p : Int) (m : Msg) :
    ((enc32 n ++ [k] ++ enc16 p ++ m).drop 7) = m := rfl

theorem getD4_enc (n k : Nat) (p : Int) (m : Msg) :
    (enc32 n ++ [k] ++ enc16 p ++ m).getD 4 0 = k := rfl

theorem getD5_enc (n k : Nat) (p : Int) (m : Msg) :
    (enc32 n ++ [k] ++ enc16 p ++ m).getD 5 0 = toUInt16 p % 256 := rfl

theorem getD6_enc (n k : Nat) (p : Int) (m : Msg) :
    (enc32 n ++ [k] ++ enc16 p ++ m).getD 6 0 = toUInt16 p / 256 := rfl

theorem statusCtor_code (k : Nat) (m1 m2 : Msg) (p : Int) :
    Status.code (statusCtor k m1 m2 p) = k := rfl

theorem mkError_eq (c : ErrCode) (m1 m2 : Msg) (p : Int) :
    mkError c m1 m2 p = statusCtor c.toByte m1 m2 p := by
  cases c <;> rfl

theorem statusCtor_posix (k : Nat) (m1 m2 : Msg) (p : Int)
    (h1 : -32768 ≤ p) (h2 : p < 32768) :
    Status.posix_code (statusCtor k m1 m2 p) = p := by
  show dec16 ((enc32 (combineMsg m1 m2).length ++ [k] ++ enc16 p ++
      combineMsg m1 m2).getD 5 0)
      ((enc32 (combineMsg m1 m2).length ++ [k] ++ enc16 p ++ combineMsg m1 m2).getD 6 0) = p
  rw [getD5_enc, getD6_enc]
  exact dec16_enc16 p h1 h2

theorem statusCtor_message (k : Nat) (m1 m2 : Msg) (p : Int)
    (h : (combineMsg m1 m2).length < 4294967296) :
    Status.message (statusCtor k m1 m2 p) = combineMsg m1 m2 := by
  show ((enc32 (combineMsg m1 m2).length ++ [k] ++ enc16 p ++ combineMsg m1 m2).drop 7).take
      (dec32 ((enc32 (combineMsg m1 m2).length ++ [k] ++ enc16 p ++
        combineMsg m1 m2).take 4)) = combineMsg m1 m2
  rw [drop7_enc, take4_enc, dec32_enc32 _ h, List.take_length]

theorem errCode_toByte_range (c : ErrCode) : 1 ≤ c.toByte ∧ c.toByte ≤ 16 := by
  cases c <;> exact ⟨by decide, by decide⟩

/-- Claim C1: every factory builds an instance satisfying exactly its own
category predicate — `Is<C>()` of `C(m1, m2, p)` is true and the fifteen
other predicates are false — and each `Is<Category>()` predicate is true
iff a payload block is present and its category tag equals the named
category, so every predicate is false on an Ok instance. -/
theorem status_factory_category_predicates (c : ErrCode) (m1 m2 : Msg) (p : Int) :
    (Status.IsNotFound (mkError c m1 m2 p) = (c == ErrCode.notFound))
    ∧ (Status.IsCorruption (mkError c m1 m2 p) = (c == ErrCode.corruption))
    ∧ (Status.IsNotSupported (mkError c m1 m2 p) = (c == ErrCode.notSupported))
    ∧ (Status.IsInvalidArgument (mkError c m1 m2 p) = (c == ErrCode.invalidArgument))
    ∧ (Status.IsIOError (mkError c m1 m2 p) = (c == ErrCode.ioError))
    ∧ (Status.IsAlreadyPresent (mkError c m1 m2 p) = (c == ErrCode.alreadyPresent))
    ∧ (Status.IsRuntimeError (mkError c m1 m2 p) = (c == ErrCode.runtimeError))
    ∧ (Status.IsNetworkError (mkError c m1 m2 p) = (c == ErrCode.networkError))
    ∧ (Status.IsIllegalState (mkError c m1 m2 p) = (c == ErrCode.illegalState))
    ∧ (Status.IsNotAuthorized (mkError c m1 m2 p) = (c == ErrCode.notAuthorized))
    ∧ (Status.IsAborted (mkError c m1 m2 p) = (c == ErrCode.aborted))
    ∧ (Status.IsRemoteError (mkError c m1 m2 p) = (c == ErrCode.remoteError))
    ∧ (Status.IsServiceUnavailable (mkError c m1 m2 p) = (c == ErrCode.serviceUnavailable))
    ∧ (Status.IsTimedOut (mkError c m1 m2 p) = (c == ErrCode.timedOut))
    ∧ (Status.IsUninitialized (mkError c m1 m2 p) = (c == ErrCode.uninitialized))
    ∧ (Status.IsConfigurationError (mkError c m1 m2 p) = (c == ErrCode.configurationError))
    ∧ (∀ s : Status, Status.IsNotFound s = (s.state.isSome && (Status.code s == kNotFound)))
    ∧ (∀ s : Status, Status.IsCorruption s = (s.state.isSome && (Status.code s == kCorruption)))
    ∧ (∀ s : Status, Status.IsNotSupported s = (s.state.isSome && (Status.code s == kNotSupported)))
    ∧ (∀ s : Status,
        Status.IsInvalidArgument s = (s.state.isSome && (Status.code s == kInvalidArgument)))
    ∧ (∀ s : Status, Status.IsIOError s = (s.state.isSome && (Status.code s == kIOError)))
    ∧ (∀ s : Status,
        Status.IsAlreadyPresent s = (s.state.isSome && (Status.code s == kAlreadyPresent)))
    ∧ (∀ s : Status, Status.IsRuntimeError s = (s.state.isSome && (Status.code s == kRuntimeError)))
    ∧ (∀ s : Status, Status.IsNetworkError s = (s.state.isSome && (Status.code s == kNetworkError)))
    ∧ (∀ s : Status, Status.IsIllegalState s = (s.state.isSome && (Status.code s == kIllegalState)))
    ∧ (∀ s : Status,
        Status.IsNotAuthorized s = (s.state.isSome && (Status.code s == kNotAuthorized)))
    ∧ (∀ s : Status, Status.IsAborted s = (s.state.isSome && (Status.code s == kAborted)))
    ∧ (∀ s : Status, Status.IsRemoteError s = (s.state.isSome && (Status.code s == kRemoteError)))
    ∧ (∀ s : Status,
        Status.IsServiceUnavailable s = (s.state.isSome && (Status.code s == kServiceUnavailable)))
    ∧ (∀ s : Status, Status.IsTimedOut s = (s.state.isSome && (Status.code s == kTimedOut)))
    ∧ (∀ s : Status,
        Status.IsUninitialized s = (s.state.isSome && (Status.code s == kUninitialized)))
    ∧ (∀ s : Status,
        Status.IsConfigurationError s = (s.state.isSome && (Status.code s == kConfigurationError)))
    ∧ (Status.IsNotFound Status.OK = false)
    ∧ (Status.IsCorruption Status.OK = false)
    ∧ (Status.IsNotSupported Status.OK = false)
    ∧ (Status.IsInvalidArgument Status.OK = false)
    ∧ (Status.IsIOError Status.OK = false)
    ∧ (Status.IsAlreadyPresent Status.OK = false)
    ∧ (Status.IsRuntimeError Status.OK = false)
    ∧ (Status.IsNetworkError Status.OK = false)
    ∧ (Status.IsIllegalState Status.OK = false)
    ∧ (Status.IsNotAuthorized Status.OK = false)
    ∧ (Status.IsAborted Status.OK = false)
    ∧ (Status.IsRemoteError Status.OK = false)
    ∧ (Status.IsServiceUnavailable Status.OK = false)
    ∧ (Status.IsTimedOut Status.OK = false)
    ∧ (Status.IsUninitialized Status.OK = false)
    ∧ (Status.IsConfigurationError Status.OK = false) := by
  repeat' apply And.intro
  all_goals
    first
      | rfl
      | (cases c <;> rfl)
      | (intro s; rcases s with ⟨_ | st⟩ <;> rfl)

/-- Claim C2: `ok()` is true exactly when no payload is present — true for
`Ok()` and for a default-constructed instance, false for the result of
every category factory on any messages and platform code. -/
theorem status_ok_iff_no_payload (c : ErrCode) (m1 m2 : Msg) (p : Int) :
    Status.ok Status.OK = true
    ∧ Status.ok (Status.mk none) = true
    ∧ Status.ok (mkError c m1 m2 p) = false
    ∧ (∀ s : Status, Status.ok s = true ↔ s.state = none) := by
  refine ⟨rfl, rfl, by cases c <;> rfl, ?_⟩
  intro s
  rcases s with ⟨_ | st⟩ <;> simp [Status.ok]

/-- Claim C3: `message()` of `C(m1, m2, p)` is `m1`, the delimiter bytes
`": "`, then `m2` whenever `m2` is non-empty (in particular when both are
non-empty, as the claim states), is exactly `m1` when `m2` is empty, and is
empty for an Ok instance. -/
theorem status_message_concatenation (c : ErrCode) (m1 m2 : Msg) (p : Int)
    (h : m1.length + 2 + m2.length < 4294967296) :
    (m2 ≠ [] → Status.message (mkError c m1 m2 p) = m1 ++ [58, 32] ++ m2)
    ∧ (m2 = [] → Status.message (mkError c m1 m2 p) = m1)
    ∧ Status.message Status.OK = [] := by
  refine ⟨?_, ?_, rfl⟩
  · intro h2
    rw [mkError_eq, statusCtor_message]
    · simp [combineMsg, h2]
    · simp only [combineMsg, if_neg h2, List.length_append, List.length_cons, List.length_nil]
      omega
  · intro h2
    subst h2
    rw [mkError_eq, statusCtor_message]
    · simp [combineMsg]
    · simp [combineMsg]
      omega

/-- Witness for C3 at `NotFound("a", "b")` and `NotFound("a", "")`. -/
theorem status_message_concatenation_witness :
    Status.message (mkError ErrCode.notFound [97] [98] 5) = [97, 58, 32, 98]
    ∧ Status.message (mkError ErrCode.notFound [97] [] 5) = [97] := by
  refine ⟨?_, ?_⟩
  · exact (status_message_concatenation ErrCode.notFound [97] [98] 5 (by decide)).1 (by decide)
  · exact (status_message_concatenation ErrCode.notFound [97] [] 5 (by decide)).2.1 rfl

/-- Claim C6: `posix_code()` is the absent sentinel `-1` on an Ok instance
and on a factory call made without a platform code (the defaulted `-1`);
a factory call with a platform code `p ≥ 0` yields exactly `p`. -/
theorem status_posix_code_roundtrip (c : ErrCode) (m1 m2 : Msg) (p : Int)
    (h0 : 0 ≤ p) (h1 : p < 32768) :
    Status.posix_code Status.OK = -1
    ∧ Status.posix_code (mkErrorNoCode c m1 m2) = -1
    ∧ Status.posix_code (mkError c m1 m2 p) = p := by
  refine ⟨rfl, ?_, ?_⟩
  · rw [mkErrorNoCode, mkError_eq]
    exact statusCtor_posix _ _ _ _ (by norm_num) (by norm_num)
  · rw [mkError_eq]
    exact statusCtor_posix _ _ _ _ (le_trans (by norm_num) h0) h1

/-- Witness for C6 at `IOError("a", "", 7)`. -/
theorem status_posix_code_roundtrip_witness :
    Status.posix_code Status.OK = -1
    ∧ Status.posix_code (mkErrorNoCode ErrCode.ioError [97] []) = -1
    ∧ Status.posix_code (mkError ErrCode.ioError [97] [] 7) = 7 :=
  status_posix_code_roundtrip ErrCode.ioError [97] [] 7 (by decide) (by decide)

theorem combineMsg_length_le (m1 m2 : Msg) :
    (combineMsg m1 m2).length ≤ m1.length + 2 + m2.length := by
  by_cases h : m2 = []
  · subst h
    simp [combineMsg]
  · simp only [combineMsg, if_neg h, List.length_append, List.length_cons, List.length_nil]
    omega

theorem combineMsg_of_ne (m1 m2 : Msg) (h : m2 ≠ []) :
    combineMsg m1 m2 = m1 ++ [58, 32] ++ m2 := by
  simp [combineMsg, h]

theorem combineMsg_nil (m1 : Msg) : combineMsg m1 [] = m1 := by
  simp [combineMsg]

theorem codeName_toByte (c : ErrCode) : codeName c.toByte = errName c := by
  cases c <;> rfl

theorem string_append_empty (s : String) : s ++ "" = s := by
  cases s
  show String.mk _ = String.mk _
  simp [String.append]

theorem statusCtor_tostring (k : Nat) (m1 m2 : Msg) (p : Int)
    (hp1 : -32768 ≤ p) (hp2 : p < 32768)
    (hl : (combineMsg m1 m2).length < 4294967296) :
    Status.ToString (statusCtor k m1 m2 p) =
      codeName k ++ ": " ++ bytesToString (combineMsg m1 m2) ++
        (if p = -1 then "" else " (error " ++ toString p ++ ")") := by
  have hm := statusCtor_message k m1 m2 p hl
  have hpp := statusCtor_posix k m1 m2 p hp1 hp2
  have hc : Status.CodeAsString (statusCtor k m1 m2 p) = codeName k := by
    show codeName (Status.code (statusCtor k m1 m2 p)) = codeName k
    rw [statusCtor_code]
  show Status.CodeAsString (statusCtor k m1 m2 p) ++ ": " ++
      bytesToString (Status.message (statusCtor k m1 m2 p)) ++
      (if Status.posix_code (statusCtor k m1 m2 p) = -1 then ""
       else " (error " ++ toString (Status.posix_code (statusCtor k m1 m2 p)) ++ ")") =
      codeName k ++ ": " ++ bytesToString (combineMsg m1 m2) ++
        (if p = -1 then "" else " (error " ++ toString p ++ ")")
  rw [hm, hpp, hc]

/-- Claim C4: `ToString()` renders `"OK"` for an Ok instance; for a non-Ok
instance it renders the category's display name, `": "`, the stored
message, with `" (error <posix>)"` appended iff a platform code is present
(`p ≠ -1`); and rendering the same unmodified instance twice gives the
same string. -/
theorem status_tostring_rendering (c : ErrCode) (m1 m2 : Msg) (p : Int)
    (hp1 : -32768 ≤ p) (hp2 : p < 32768)
    (hl : m1.length + 2 + m2.length < 4294967296) :
    Status.ToString Status.OK = "OK"
    ∧ Status.ToString (mkError c m1 m2 p) =
        errName c ++ ": " ++ bytesToString (combineMsg m1 m2) ++
          (if p = -1 then "" else " (error " ++ toString p ++ ")")
    ∧ (∀ s : Status, Status.ToString s = Status.ToString s) := by
  refine ⟨rfl, ?_, fun s => rfl⟩
  rw [mkError_eq,
    statusCtor_tostring c.toByte m1 m2 p hp1 hp2
      (lt_of_le_of_lt (combineMsg_length_le m1 m2) hl),
    codeName_toByte]

/-- Witness for C4 at `TimedOut("x", "", 5)` and at `Ok`. -/
theorem status_tostring_rendering_witness :
    Status.ToString Status.OK = "OK"
    ∧ Status.ToString (mkError ErrCode.timedOut [120] [] 5) = "TimedOut: x (error 5)" := by
  have h := status_tostring_rendering ErrCode.timedOut [120] [] 5
    (by decide) (by decide) (by decide)
  refine ⟨h.1, ?_⟩
  rw [h.2.1]
  rfl

/-- Claim C10: passing `-1` explicitly is the same call as omitting the
platform code (the header defaults the parameter to `-1`), so the two
instances are equal — indistinguishable through the whole interface — the
reported platform code is the absent sentinel, and `ToString` carries no
`" (error ...)"` suffix. -/
theorem status_posix_sentinel_no_representation (c : ErrCode) (m1 m2 : Msg)
    (hl : m1.length + 2 + m2.length < 4294967296) :
    mkErrorNoCode c m1 m2 = mkError c m1 m2 (-1)
    ∧ Status.posix_code (mkError c m1 m2 (-1)) = -1
    ∧ Status.ToString (mkError c m1 m2 (-1)) =
        errName c ++ ": " ++ bytesToString (combineMsg m1 m2) := by
  refine ⟨rfl, ?_, ?_⟩
  · rw [mkError_eq]
    exact statusCtor_posix _ _ _ _ (by norm_num) (by norm_num)
  · rw [mkError_eq,
      statusCtor_tostring c.toByte m1 m2 (-1) (by norm_num) (by norm_num)
        (lt_of_le_of_lt (combineMsg_length_le m1 m2) hl),
      codeName_toByte, if_pos rfl, string_append_empty]

/-- Witness for C10 at `Aborted("a", "b")`. -/
theorem status_posix_sentinel_no_representation_witness :
    mkErrorNoCode ErrCode.aborted [97] [98] = mkError ErrCode.aborted [97] [98] (-1)
    ∧ Status.posix_code (mkError ErrCode.aborted [97] [98] (-1)) = -1
    ∧ Status.ToString (mkError ErrCode.aborted [97] [98] (-1)) =
        errName ErrCode.aborted ++ ": " ++ bytesToString (combineMsg [97] [98]) :=
  status_posix_sentinel_no_representation ErrCode.aborted [97] [98] (by decide)

/-- Counterexample to C5 as stated: on the non-Ok instance
`NotFound("", "")`, whose stored message is empty, `CloneAndPrepend("ctx")`
yields the message `"ctx"`, not `"ctx" ++ ": " ++ ""` — the delimiter is
inserted only when the original message is non-empty. -/
theorem status_clone_and_prepend_counterexample :
    Status.ok (Status.NotFound [] [] (-1)) = false
    ∧ Status.message (Status.CloneAndPrepend (Status.NotFound [] [] (-1)) [99, 116, 120]) =
        [99, 116, 120]
    ∧ Status.message (Status.CloneAndPrepend (Status.NotFound [] [] (-1)) [99, 116, 120]) ≠
        [99, 116, 120] ++ [58, 32] ++ Status.message (Status.NotFound [] [] (-1)) := by
  decide

/-- Claim C5 (amended): `CloneAndPrepend(e)` on a factory-built non-Ok
instance keeps the category and the platform code, and its message is `e`
joined to the original message by the standard delimiter — `e ++ ": " ++
message` when the original message is non-empty, and exactly `e` when the
original message is empty. -/
theorem status_clone_and_prepend (c : ErrCode) (m1 m2 : Msg) (p : Int) (e : Msg)
    (hp1 : -32768 ≤ p) (hp2 : p < 32768)
    (hl : m1.length + 2 + m2.length < 4294967296)
    (hle : e.length + 2 + (combineMsg m1 m2).length < 4294967296) :
    Status.code (Status.CloneAndPrepend (mkError c m1 m2 p) e) = Status.code (mkError c m1 m2 p)
    ∧ Status.posix_code (Status.CloneAndPrepend (mkError c m1 m2 p) e) = p
    ∧ Status.message (Status.CloneAndPrepend (mkError c m1 m2 p) e) =
        combineMsg e (Status.message (mkError c m1 m2 p))
    ∧ (Status.message (mkError c m1 m2 p) ≠ [] →
        Status.message (Status.CloneAndPrepend (mkError c m1 m2 p) e) =
          e ++ [58, 32] ++ Status.message (mkError c m1 m2 p))
    ∧ (Status.message (mkError c m1 m2 p) = [] →
        Status.message (Status.CloneAndPrepend (mkError c m1 m2 p) e) = e) := by
  have hcl : (combineMsg m1 m2).length < 4294967296 :=
    lt_of_le_of_lt (combineMsg_length_le m1 m2) hl
  have hecl : (combineMsg e (combineMsg m1 m2)).length < 4294967296 :=
    lt_of_le_of_lt (combineMsg_length_le e (combineMsg m1 m2)) hle
  have hX : Status.message (mkError c m1 m2 p) = combineMsg m1 m2 := by
    rw [mkError_eq]
    exact statusCtor_message _ _ _ _ hcl
  have hs : Status.CloneAndPrepend (mkError c m1 m2 p) e =
      statusCtor c.toByte e (combineMsg m1 m2) p := by
    rw [mkError_eq]
    show statusCtor (Status.code (statusCtor c.toByte m1 m2 p)) e
        (Status.message (statusCtor c.toByte m1 m2 p))
        (Status.posix_code (statusCtor c.toByte m1 m2 p)) =
      statusCtor c.toByte e (combineMsg m1 m2) p
    rw [statusCtor_code, statusCtor_message c.toByte m1 m2 p hcl,
      statusCtor_posix c.toByte m1 m2 p hp1 hp2]
  refine ⟨?_, ?_, ?_, ?_, ?_⟩
  · rw [hs, mkError_eq, statusCtor_code, statusCtor_code]
  · rw [hs]
    exact statusCtor_posix _ _ _ _ hp1 hp2
  · rw [hs, hX]
    exact statusCtor_message _ _ _ _ hecl
  · intro hne
    rw [hX] at hne
    rw [hs, statusCtor_message _ _ _ _ hecl, hX]
    exact combineMsg_of_ne e _ hne
  · intro heq
    rw [hX] at heq
    rw [hs, statusCtor_message _ _ _ _ hecl, heq]
    exact combineMsg_nil e

/-- Witness for the amended C5 at `NotFound("missing").CloneAndPrepend("ctx")`:
the result is still NotFound and its message is `"ctx: missing"`. -/
theorem status_clone_and_prepend_witness :
    Status.IsNotFound (Status.CloneAndPrepend
      (mkError ErrCode.notFound [109, 105, 115, 115, 105, 110, 103] [] (-1))
      [99, 116, 120]) = true
    ∧ Status.message (Status.CloneAndPrepend
        (mkError ErrCode.notFound [109, 105, 115, 115, 105, 110, 103] [] (-1))
        [99, 116, 120]) =
      [99, 116, 120] ++ [58, 32] ++
        Status.message (mkError ErrCode.notFound [109, 105, 115, 115, 105, 110, 103] [] (-1)) := by
  have h := status_clone_and_prepend ErrCode.notFound
    [109, 105, 115, 115, 105, 110, 103] [] (-1) [99, 116, 120]
    (by decide) (by decide) (by decide) (by decide)
  exact ⟨by decide, h.2.2.2.1 (by decide)⟩

/-- Counterexample to C9 as stated: for `NotFound("a")` the block's first
four bytes decode to 1 — the message's byte length — while the owned
payload block is 8 bytes long, so the first bytes do not hold the
payload block's byte length. -/
theorem status_length_field_counterexample :
    (mkError ErrCode.notFound [97] [] (-1)).state.isSome = true
    ∧ dec32 (((mkError ErrCode.notFound [97] [] (-1)).state.getD []).take 4) = 1
    ∧ ((mkError ErrCode.notFound [97] [] (-1)).state.getD []).length = 8
    ∧ dec32 (((mkError ErrCode.notFound [97] [] (-1)).state.getD []).take 4) ≠
        ((mkError ErrCode.notFound [97] [] (-1)).state.getD []).length := by
  decide

theorem statusCtor_wf (k : Nat) (hk1 : 1 ≤ k) (hk16 : k ≤ 16) (m1 m2 : Msg) (p : Int) :
    StatusWF (statusCtor k m1 m2 p) :=
  ⟨k, p, combineMsg m1 m2, hk1, hk16, rfl⟩

/-- Claim C9 (amended): an Ok instance carries no payload block; every
factory-built instance owns exactly one block of the encoded shape —
the message's byte length, the category tag, the platform code, then the
raw message bytes; `CloneAndPrepend` on a well-formed non-Ok instance
preserves the shape; `CopyState` reproduces the block bytes exactly; and
on a block of this shape the category and the message are read from the
fixed offsets without rescanning. -/
theorem status_representation_invariant (c : ErrCode) (m1 m2 : Msg) (p : Int)
    (s : Status) (e : Msg) :
    Status.OK.state = none
    ∧ StatusWF Status.OK
    ∧ (mkError c m1 m2 p).state.isSome = true
    ∧ StatusWF (mkError c m1 m2 p)
    ∧ (StatusWF s → Status.ok s = false → StatusWF (Status.CloneAndPrepend s e))
    ∧ (∀ h : Heap, ∀ a : Nat, ∀ bs : Msg, Heap.get h a = some bs →
        Heap.get (CopyState h a).1 (CopyState h a).2 = some bs)
    ∧ (∀ bs : Msg, ∀ k : Nat, ∀ p2 : Int, ∀ m : Msg,
        bs = enc32 m.length ++ [k] ++ enc16 p2 ++ m → m.length < 4294967296 →
        Status.code (Status.mk (some bs)) = k
        ∧ Status.message (Status.mk (some bs)) = m) := by
  refine ⟨rfl, trivial, ?_, ?_, ?_, ?_, ?_⟩
  · rw [mkError_eq]
    rfl
  · rw [mkError_eq]
    exact statusCtor_wf c.toByte (errCode_toByte_range c).1 (errCode_toByte_range c).2 m1 m2 p
  · intro hwf hok
    rcases s with ⟨st⟩
    cases st with
    | none => simp [Status.ok] at hok
    | some bs =>
      obtain ⟨k, p2, m, hk1, hk16, hbs⟩ := hwf
      subst hbs
      have hcode : Status.code (Status.mk (some (enc32 m.length ++ [k] ++ enc16 p2 ++ m))) = k :=
        getD4_enc m.length k p2 m
      show StatusWF (statusCtor (Status.code (Status.mk (some (enc32 m.length ++ [k] ++
        enc16 p2 ++ m)))) e
        (Status.message (Status.mk (some (enc32 m.length ++ [k] ++ enc16 p2 ++ m))))
        (Status.posix_code (Status.mk (some (enc32 m.length ++ [k] ++ enc16 p2 ++ m)))))
      exact statusCtor_wf _ (by rw [hcode]; exact hk1) (by rw [hcode]; exact hk16) _ _ _
  · intro h a bs hget
    show Heap.get (Heap.alloc h ((Heap.get h a).getD [])).1
        (Heap.alloc h ((Heap.get h a).getD [])).2 = some bs
    rw [hget]
    exact heapGet_alloc_self h bs
  · intro bs k p2 m hbs hlen
    subst hbs
    refine ⟨getD4_enc m.length k p2 m, ?_⟩
    show ((enc32 m.length ++ [k] ++ enc16 p2 ++ m).drop 7).take
        (dec32 ((enc32 m.length ++ [k] ++ enc16 p2 ++ m).take 4)) = m
    rw [drop7_enc, take4_enc, dec32_enc32 _ hlen, List.take_length]

/-- Witness for the amended C9 at `Corruption("a")`, its clone, and a
one-block heap. -/
theorem status_representation_invariant_witness :
    StatusWF (mkError ErrCode.corruption [97] [] (-1))
    ∧ StatusWF (Status.CloneAndPrepend (mkError ErrCode.corruption [97] [] (-1)) [98])
    ∧ Heap.get (CopyState (Heap.mk [(0, [1])] 1) 0).1 (CopyState (Heap.mk [(0, [1])] 1) 0).2 =
        some [1]
    ∧ Status.code (Status.mk (some (enc32 1 ++ [2] ++ enc16 (-1) ++ [97]))) = 2 := by
  have h := status_representation_invariant ErrCode.corruption [97] [] (-1)
    (mkError ErrCode.corruption [97] [] (-1)) [98]
  refine ⟨h.2.2.2.1, ?_, ?_, ?_⟩
  · exact h.2.2.2.2.1 h.2.2.2.1 (by decide)
  · exact h.2.2.2.2.2.1 (Heap.mk [(0, [1])] 1) 0 [1] rfl
  · exact (h.2.2.2.2.2.2 _ 2 (-1) [97] rfl (by decide)).1

theorem copyState_get (h : Heap) (a : Nat) (bs : Msg) (hget : Heap.get h a = some bs) :
    Heap.get (CopyState h a).1 (CopyState h a).2 = some bs := by
  show Heap.get (Heap.alloc h ((Heap.get h a).getD [])).1
      (Heap.alloc h ((Heap.get h a).getD [])).2 = some bs
  rw [hget]
  exact heapGet_alloc_self h bs

/-- Claim C7: assignment is aliasing-safe.  When the stored pointers are
equal — self-assignment, or two Ok instances — the heap, the destination
and the allocation/free counts are untouched.  Otherwise the destination
ends up observably equal to the source (a deep copy, one allocation, when
the source is non-Ok; Ok when the source is Ok), and a destination that
owned a block has released it (its old address is no longer live and one
non-null `delete[]` happened). -/
theorem status_assign_aliasing_safe (h : Heap) (dst src : Option Nat) :
    (dst = src → statusAssign h dst src = (h, dst, 0, 0))
    ∧ (∀ a bs, dst ≠ src → src = some a → Heap.get h a = some bs →
        obsStatus (statusAssign h dst src).1 (statusAssign h dst src).2.1 = Status.mk (some bs)
        ∧ (statusAssign h dst src).2.2.1 = 1)
    ∧ (dst ≠ src → src = none → (statusAssign h dst src).2.1 = none)
    ∧ (∀ a0 bs0, dst ≠ src → dst = some a0 → Heap.wf h → Heap.get h a0 = some bs0 →
        Heap.get (statusAssign h dst src).1 a0 = none
        ∧ (statusAssign h dst src).2.2.2 = 1) := by
  refine ⟨?_, ?_, ?_, ?_⟩
  · intro he
    simp [statusAssign, he]
  · intro a bs hne hsrc hget
    subst hsrc
    cases dst with
    | none =>
      simp only [statusAssign, if_neg hne]
      refine ⟨?_, trivial⟩
      show Status.mk (Heap.get (CopyState h a).1 (CopyState h a).2) = Status.mk (some bs)
      rw [copyState_get h a bs hget]
    | some a0 =>
      have haa : a ≠ a0 := by
        intro hh
        exact hne (by rw [hh])
      simp only [statusAssign, if_neg hne]
      refine ⟨?_, trivial⟩
      show Status.mk (Heap.get (CopyState (Heap.free h a0) a).1
        (CopyState (Heap.free h a0) a).2) = Status.mk (some bs)
      rw [copyState_get (Heap.free h a0) a bs (by rw [heapGet_free_ne h a0 a haa]; exact hget)]
  · intro hne hsrc
    subst hsrc
    cases dst with
    | none => exact absurd rfl hne
    | some a0 => simp [statusAssign, hne]
  · intro a0 bs0 hne hdst hwf hget
    subst hdst
    have hlt : a0 < h.nextAddr := findBlock_some_lt h a0 bs0 hwf hget
    cases src with
    | none =>
      simp only [statusAssign, if_neg hne]
      exact ⟨heapGet_free_self h a0, trivial⟩
    | some a =>
      simp only [statusAssign, if_neg hne]
      refine ⟨?_, trivial⟩
      show Heap.get (Heap.alloc (Heap.free h a0)
        ((Heap.get (Heap.free h a0) a).getD [])).1 a0 = none
      rw [heapGet_alloc_ne]
      · exact heapGet_free_self h a0
      · show a0 ≠ h.nextAddr
        omega

/-- Claim C8: copying is a deep copy with full independence.  `b` made from
`a` by copy construction (`statusCopy`) or by copy assignment into a fresh
Ok destination observes the source's bytes; after `a` is reassigned to an
arbitrary other value, `b` still observes exactly its original bytes. -/
theorem status_copy_independence (h : Heap) (a : Nat) (bs : Msg) (src2 : Option Nat)
    (hwf : Heap.wf h) (ha : Heap.get h a = some bs) :
    obsStatus (statusCopy h (some a)).1 (statusCopy h (some a)).2 = Status.mk (some bs)
    ∧ obsStatus (statusAssign (statusCopy h (some a)).1 (some a) src2).1
        (statusCopy h (some a)).2 = Status.mk (some bs)
    ∧ obsStatus (statusAssign h none (some a)).1 (statusAssign h none (some a)).2.1 =
        Status.mk (some bs)
    ∧ obsStatus (statusAssign (statusAssign h none (some a)).1 (some a) src2).1
        (statusAssign h none (some a)).2.1 = Status.mk (some bs) := by
  have hlt : a < h.nextAddr := findBlock_some_lt h a bs hwf ha
  have h1 : obsStatus (statusCopy h (some a)).1 (statusCopy h (some a)).2 =
      Status.mk (some bs) := by
    show Status.mk (Heap.get (CopyState h a).1 (CopyState h a).2) = Status.mk (some bs)
    rw [copyState_get h a bs ha]
  have hB : Heap.get (CopyState h a).1 h.nextAddr = some bs := copyState_get h a bs ha
  have h2 : obsStatus (statusAssign (statusCopy h (some a)).1 (some a) src2).1
      (statusCopy h (some a)).2 = Status.mk (some bs) := by
    by_cases he : (some a : Option Nat) = src2
    · show obsStatus (statusAssign (CopyState h a).1 (some a) src2).1
        (some (CopyState h a).2) = Status.mk (some bs)
      rw [← he]
      simp only [statusAssign, if_pos rfl]
      show Status.mk (Heap.get (CopyState h a).1 (CopyState h a).2) = Status.mk (some bs)
      rw [copyState_get h a bs ha]
    · show obsStatus (statusAssign (CopyState h a).1 (some a) src2).1
        (some h.nextAddr) = Status.mk (some bs)
      cases src2 with
      | none =>
        simp only [statusAssign, if_neg he]
        show Status.mk (Heap.get (Heap.free (CopyState h a).1 a) h.nextAddr) =
          Status.mk (some bs)
        rw [heapGet_free_ne _ _ _ (by omega), hB]
      | some a2 =>
        simp only [statusAssign, if_neg he]
        show Status.mk (Heap.get (Heap.alloc (Heap.free (CopyState h a).1 a)
          ((Heap.get (Heap.free (CopyState h a).1 a) a2).getD [])).1 h.nextAddr) =
          Status.mk (some bs)
        rw [heapGet_alloc_ne]
        · rw [heapGet_free_ne _ _ _ (by omega), hB]
        · show h.nextAddr ≠ h.nextAddr + 1
          omega
  refine ⟨h1, h2, h1, h2⟩

/-- Witness for C7 on a one-block heap: self-assignment is a no-op with no
allocation or free; assigning the block into an Ok destination observes the
source's bytes; assigning Ok into the owner nulls it and releases the old
block. -/
theorem status_assign_aliasing_safe_witness :
    statusAssign (Heap.mk [(0, [7])] 1) (some 0) (some 0) = (Heap.mk [(0, [7])] 1, some 0, 0, 0)
    ∧ obsStatus (statusAssign (Heap.mk [(0, [7])] 1) none (some 0)).1
        (statusAssign (Heap.mk [(0, [7])] 1) none (some 0)).2.1 = Status.mk (some [7])
    ∧ (statusAssign (Heap.mk [(0, [7])] 1) (some 0) none).2.1 = none
    ∧ Heap.get (statusAssign (Heap.mk [(0, [7])] 1) (some 0) none).1 0 = none := by
  have t := status_assign_aliasing_safe (Heap.mk [(0, [7])] 1)
  refine ⟨(t (some 0) (some 0)).1 rfl, ?_, ?_, ?_⟩
  · exact ((t none (some 0)).2.1 0 [7] (by decide) rfl rfl).1
  · exact (t (some 0) none).2.2.1 (by decide) rfl
  · exact ((t (some 0) none).2.2.2 0 [7] (by decide) rfl (by simp [Heap.wf]) rfl).1

/-- Witness for C8 on a one-block heap: the copy observes the original
bytes, and still does after the source is reassigned to Ok. -/
theorem status_copy_independence_witness :
    obsStatus (statusCopy (Heap.mk [(0, [7])] 1) (some 0)).1
      (statusCopy (Heap.mk [(0, [7])] 1) (some 0)).2 = Status.mk (some [7])
    ∧ obsStatus (statusAssign (statusCopy (Heap.mk [(0, [7])] 1) (some 0)).1 (some 0) none).1
        (statusCopy (Heap.mk [(0, [7])] 1) (some 0)).2 = Status.mk (some [7]) := by
  have t := status_copy_independence (Heap.mk [(0, [7])] 1) 0 [7] none (by simp [Heap.wf]) rfl
  exact ⟨t.1, t.2.1⟩
